import Mathlib

/-!
Shallow embedding of the clickhouse-function-reference pipeline (src/main.py)
and proofs of the specification claims about it.

The program shells out to a container runtime and to a remote query service;
those external collaborators are modelled as oracles (functions supplied as
parameters) and as an explicit container-state map, following the
runtime-driver interface of the spec.  Everything that is logic of the
program itself (retry loop, benign-failure classification, cache validation
policy, provisioning / cleanup decisions, TSV parsing, aggregation) is
translated directly from the source.
-/

/-- Apostrophe character, written by code point to keep source plain. -/
def apos : Char := Char.ofNat 39

/-- Tab character. -/
def tabChar : Char := Char.ofNat 9

/-- Strip all leading and trailing apostrophes from a character list,
mirroring the Python `str.strip` with an apostrophe argument used in
`should_cache`. -/
def stripAposList (l : List Char) : List Char :=
  ((l.dropWhile (fun c => c == apos)).reverse.dropWhile (fun c => c == apos)).reverse

/-- String version of `stripAposList`. -/
def pyStripApos (s : String) : String := ⟨stripAposList s.data⟩

/-- Python `repr` of a plain string without embedded quotes: the string
wrapped in apostrophes.  This is the form in which joblib records the
argument values it hands to the cache-validation callback. -/
def pyRepr (s : String) : String := ⟨apos :: (s.data ++ [apos])⟩

/-- Substring containment on raw text, used for the benign-failure
signature test (the Python `in` operator on strings). -/
def strContains (needle hay : String) : Bool :=
  decide (needle.data <:+: hay.data)

/-- Python `str.splitlines` for newline-separated text: split on the
newline character, with no trailing empty line when the text ends in a
newline, and no lines at all for the empty string. -/
def pySplitlines (s : String) : List String :=
  if s = "" then []
  else if s.endsWith "\n" then (s.split (fun c => c = '\n')).dropLast
  else s.split (fun c => c = '\n')

/-- Split one TSV line into fields at tab characters. -/
def splitTab (s : String) : List String := s.split (fun c => c = tabChar)

/-- A parsed record: a mapping from field name to string value. -/
abbrev Rec := List (String × String)

/-- The `csv.DictReader` pass used by the three getters: the first line is
the header naming the fields, and each later line is zipped with those
names into a record. -/
def dictReaderTSV (tsv : String) : List Rec :=
  match pySplitlines tsv with
  | [] => []
  | header :: rows =>
    let names := splitTab header
    rows.map (fun row => names.zip (splitTab row))

/-- Source constant `ALLOWED_TAGS`. -/
def ALLOWED_TAGS : List String := ["latest", "head"]

/-- Source constant `CACHE_DENY_LIST`: the mutable version aliases whose
cache entries are never trusted. -/
def CACHE_DENY_LIST : List String := ["latest", "head"]

/-- Source constant `USE_FIDDLE`: remote execution mode toggle. -/
def USE_FIDDLE : Bool := false

/-- Deterministic container name for a version tag, from
`CONTAINER_NAME_TEMPLATE`. -/
def containerName (tag : String) : String :=
  "clickhouse-function-reference-" ++ tag

/-- Inter-attempt delay of the retry loop, in milliseconds
(`time.sleep(0.10)`). -/
def SLEEP_MS : Nat := 100

/-- Upper bound of the retry loop (`for n in range(60)`). -/
def MAX_RETRIES : Nat := 60

/-- The fixed functions introspection query of `get_functions`. -/
def FUNCTIONS_QUERY : String :=
  "SELECT * FROM system.functions FORMAT TabSeparatedWithNames"

/-- The fixed keywords introspection query of `get_keywords`. -/
def KEYWORDS_QUERY : String :=
  "SELECT keyword as name FROM system.keywords FORMAT TabSeparatedWithNames"

/-- The fixed settings introspection query of `get_settings`. -/
def SETTINGS_QUERY : String :=
  "SELECT name FROM system.settings FORMAT TabSeparatedWithNames"

/-- Cache-validation callback `should_cache` from the source: look up the
repr-quoted `tag` entry of the recorded input arguments (empty string when
absent), strip apostrophes, and trust the stored entry exactly when the
result is not in the deny list. -/
def should_cache (input_args : List (String × String)) : Bool :=
  !(CACHE_DENY_LIST.contains (pyStripApos ((input_args.lookup "tag").getD "")))

/-- One call through the joblib result cache with `should_cache` installed
as the validation callback: a missing entry is computed and stored; a
present entry is returned as-is when the callback validates it and is
otherwise recomputed and overwritten.  The returned flag records whether
`compute` was invoked. -/
def cachedCall {α : Type} (stored : Option α) (input_args : List (String × String))
    (compute : Unit → α) : α × Option α × Bool :=
  match stored with
  | none => (compute (), some (compute ()), true)
  | some v =>
    if should_cache input_args then (v, some v, false)
    else (compute (), some (compute ()), true)

/-- Outcome of one `docker exec ... clickhouse-client` attempt. -/
structure QAttempt where
  stdout : String
  stderr : String
  returncode : Int
  deriving DecidableEq

/-- The acceptance test of the retry loop: zero exit status, or the benign
"object not found" signature `UNKNOWN_TABLE` in the raw failure text. -/
def attemptAccepted (a : QAttempt) : Bool :=
  (a.returncode == 0) || strContains "UNKNOWN_TABLE" a.stderr

/-- The retry loop of `run_query_against_version_locally`: starting at
attempt index `n` with `r` attempts remaining, run attempts until one is
accepted or the budget is exhausted.  Returns the result (the accepted
attempt's stdout, or `none`), the number of attempts made, and the total
sleep in milliseconds (one `SLEEP_MS` delay after every failed attempt). -/
def runQueryLoop (att : Nat → QAttempt) : Nat → Nat → Option String × Nat × Nat
  | _, 0 => (none, 0, 0)
  | n, r + 1 =>
    let a := att n
    if attemptAccepted a then (some a.stdout, 1, 0)
    else
      let rest := runQueryLoop att (n + 1) r
      (rest.1, rest.2.1 + 1, rest.2.2 + SLEEP_MS)

example : runQueryLoop (fun _ => ⟨"", "boom", 1⟩) 0 3 = (none, 3, 300) := by decide

example :
    runQueryLoop (fun n => if n < 2 then ⟨"", "boom", 1⟩ else ⟨"ok", "", 0⟩) 0 60
      = (some "ok", 3, 200) := by decide

/-- Observable state of a named container in the external runtime. -/
inductive CState where
  | absent
  | running
  | stopped
  deriving DecidableEq

/-- The container runtime's global name namespace: the state of every
container name. -/
def DockerState : Type := String → CState

/-- Update the state recorded under one container name. -/
def dset (d : DockerState) (name : String) (s : CState) : DockerState :=
  fun n => if n = name then s else d n

/-- Provisioning and reclaiming events issued to the container runtime,
used to observe which external calls a code path performs. -/
inductive PEvent where
  | inspect (name : String)
  | removeForced (name : String)
  | pull (tag : String)
  | runDetached (name : String) (tag : String)
  | stop (name : String)
  | remove (name : String)
  deriving DecidableEq

/-- The provisioning prelude of `run_query_against_version_locally`
(the Provisioner's `ensure`): inspect the deterministic container name; if
it is running, reuse it with no further runtime calls; otherwise
force-remove any stale container, pull the versioned image, and start the
container detached.  The external pull/start succeed exactly when
`imageOk` holds for the tag; a failed start is logged and non-fatal, so
the handle (the name) is returned regardless. -/
def ensure (d : DockerState) (imageOk : String → Bool) (tag : String) :
    DockerState × String × List PEvent :=
  let name := containerName tag
  if d name = CState.running then
    (d, name, [PEvent.inspect name])
  else
    let d1 := dset d name CState.absent
    let d2 := if imageOk tag then dset d1 name CState.running else d1
    (d2, name, [PEvent.inspect name, PEvent.removeForced name, PEvent.pull tag,
                PEvent.runDetached name tag])

/-- The per-version cleanup block of `main` (the Reclaimer): inspect the
just-processed version's deterministic container name, and if that
container is still running, stop it and remove it.  No other name is
inspected or touched. -/
def cleanupSweep (d : DockerState) (tag : String) : DockerState × List PEvent :=
  let name := containerName tag
  if d name = CState.running then
    (dset (dset d name CState.stopped) name CState.absent,
     [PEvent.inspect name, PEvent.stop name, PEvent.remove name])
  else
    (d, [PEvent.inspect name])

/-- The nested payload of a remote-service response: the optional
`output` field of the `result` object. -/
structure FiddleResult where
  output : Option String
  deriving DecidableEq

/-- A remote-service response: the optional `result` object. -/
structure FiddleResponse where
  result : Option FiddleResult
  deriving DecidableEq

/-- Remote execution path `run_query_against_fiddle`: one POST of
`(query, tag)`, then `response.json().get("result", {}).get("output")` —
a missing `result` or `output` field yields `none`. -/
def run_query_against_fiddle (net : String → String → FiddleResponse)
    (query tag : String) : Option String :=
  match (net query tag).result with
  | none => none
  | some r => r.output

/-- Everything one `run_query` call observably does: the result text (or
absence), the container-runtime state afterwards, the provisioning events
issued, the number of network round-trips made, the number of local query
attempts, and the total sleep in milliseconds. -/
structure RunResult where
  result : Option String
  docker : DockerState
  events : List PEvent
  netCalls : Nat
  attempts : Nat
  sleepMs : Nat

/-- Local execution path `run_query_against_version_locally`: provision
the container for the tag, then run the retry loop (`MAX_RETRIES` attempts,
`SLEEP_MS` between attempts) of query attempts supplied by the `execQ`
oracle, accepting the first attempt that exits cleanly or matches the
benign signature. -/
def run_query_against_version_locally (d : DockerState) (imageOk : String → Bool)
    (execQ : String → String → Nat → QAttempt) (query tag : String) : RunResult :=
  let e := ensure d imageOk tag
  let l := runQueryLoop (execQ query tag) 0 MAX_RETRIES
  ⟨l.1, e.1, e.2.2, 0, l.2.1, l.2.2⟩

/-- `run_query`: dispatch on the execution-mode toggle, exactly as the
source branches on `USE_FIDDLE`.  The remote path performs one network
round-trip with no retry loop, no provisioning events, and no change to
the container runtime. -/
def run_query (useFiddle : Bool) (net : String → String → FiddleResponse)
    (d : DockerState) (imageOk : String → Bool)
    (execQ : String → String → Nat → QAttempt) (query tag : String) : RunResult :=
  if useFiddle then
    ⟨run_query_against_fiddle net query tag, d, [], 1, 0, 0⟩
  else
    run_query_against_version_locally d imageOk execQ query tag

/-- The external collaborators of the pipeline, bundled: the remote query
service, image availability, and the per-attempt outcome of local query
execution. -/
structure Oracles where
  net : String → String → FiddleResponse
  imageOk : String → Bool
  execQ : String → String → Nat → QAttempt

/-- A Python exception escaping a getter. -/
inductive PyErr where
  | attributeError (msg : String)
  deriving DecidableEq

/-- Message of the exception raised by calling `splitlines` on `None`. -/
def noneSplitlinesMsg : String :=
  "NoneType object has no attribute splitlines"

/-- Body of the three cached getters: run the query, then parse the result
text with `csv.DictReader`.  When `run_query` returned `None` (exhausted
retries), the parse step calls `splitlines` on `None` and raises
`AttributeError`. -/
def computeGetter (o : Oracles) (d : DockerState) (query tag : String) :
    Except PyErr (List Rec) × DockerState :=
  let r := run_query USE_FIDDLE o.net d o.imageOk o.execQ query tag
  match r.result with
  | none => (Except.error (PyErr.attributeError noneSplitlinesMsg), r.docker)
  | some s => (Except.ok (dictReaderTSV s), r.docker)

/-- One call of a memoized getter: consult the per-getter store; a missing
entry, or one the `should_cache` callback rejects (mutable-alias tag), is
computed by running the query and overwrites the store; a validated entry
is returned with no query run.  An exception from the body propagates and
caches nothing. -/
def cachedGetter (o : Oracles) (query : String) (cache : List (String × List Rec))
    (d : DockerState) (tag : String) :
    Except PyErr (List Rec) × List (String × List Rec) × DockerState :=
  match cache.lookup tag with
  | some v =>
    if should_cache [("tag", pyRepr tag)] then
      (Except.ok v, cache, d)
    else
      match computeGetter o d query tag with
      | (Except.ok r, d1) => (Except.ok r, (tag, r) :: cache, d1)
      | (Except.error e, d1) => (Except.error e, cache, d1)
  | none =>
    match computeGetter o d query tag with
    | (Except.ok r, d1) => (Except.ok r, (tag, r) :: cache, d1)
    | (Except.error e, d1) => (Except.error e, cache, d1)

/-- The pipeline state threaded through the orchestrator: the container
runtime and the three disk-backed getter caches. -/
structure SysState where
  docker : DockerState
  cacheF : List (String × List Rec)
  cacheK : List (String × List Rec)
  cacheS : List (String × List Rec)

/-- Cached getter `get_functions`. -/
def get_functions (o : Oracles) (st : SysState) (tag : String) :
    Except PyErr (List Rec) × SysState :=
  let t := cachedGetter o FUNCTIONS_QUERY st.cacheF st.docker tag
  (t.1, ⟨t.2.2, t.2.1, st.cacheK, st.cacheS⟩)

/-- Cached getter `get_keywords`. -/
def get_keywords (o : Oracles) (st : SysState) (tag : String) :
    Except PyErr (List Rec) × SysState :=
  let t := cachedGetter o KEYWORDS_QUERY st.cacheK st.docker tag
  (t.1, ⟨t.2.2, st.cacheF, t.2.1, st.cacheS⟩)

/-- Cached getter `get_settings`. -/
def get_settings (o : Oracles) (st : SysState) (tag : String) :
    Except PyErr (List Rec) × SysState :=
  let t := cachedGetter o SETTINGS_QUERY st.cacheS st.docker tag
  (t.1, ⟨t.2.2, st.cacheF, st.cacheK, t.2.1⟩)

/-- One iteration of the `main` loop body for one version tag: run the
three getters, then — unless the tag is the floor version `"21.9"`, at
which the loop breaks before any cleanup, and unless remote mode is on —
run the cleanup sweep for this tag's container name.  The boolean records
whether the loop continues to the next tag.  An uncaught exception from a
getter aborts the iteration (and, in `mainLoop`, the whole pipeline). -/
def processVersion (o : Oracles) (st : SysState) (tag : String) :
    Except PyErr (SysState × List Rec × List Rec × List Rec × Bool) :=
  match get_functions o st tag with
  | (Except.error e, _) => Except.error e
  | (Except.ok fs, st1) =>
    match get_keywords o st1 tag with
    | (Except.error e, _) => Except.error e
    | (Except.ok ks, st2) =>
      match get_settings o st2 tag with
      | (Except.error e, _) => Except.error e
      | (Except.ok ss, st3) =>
        if tag = "21.9" then
          Except.ok (st3, fs, ks, ss, false)
        else if USE_FIDDLE then
          Except.ok (st3, fs, ks, ss, true)
        else
          Except.ok (⟨(cleanupSweep st3.docker tag).1, st3.cacheF, st3.cacheK, st3.cacheS⟩,
                     fs, ks, ss, true)

/-- The `main` loop over the resolved version tags, accumulating the three
per-version result maps in iteration order.  An uncaught exception from
any getter aborts the whole loop: no data for the remaining tags. -/
def mainLoop (o : Oracles) :
    List String → SysState →
    Except PyErr (SysState × List (String × List Rec) × List (String × List Rec) ×
                  List (String × List Rec))
  | [], st => Except.ok (st, [], [], [])
  | tag :: rest, st =>
    match processVersion o st tag with
    | Except.error e => Except.error e
    | Except.ok (st1, fs, ks, ss, cont) =>
      if cont then
        match mainLoop o rest st1 with
        | Except.error e => Except.error e
        | Except.ok (st2, fi, ki, si) =>
          Except.ok (st2, (tag, fs) :: fi, (tag, ks) :: ki, (tag, ss) :: si)
      else
        Except.ok (st1, [(tag, fs)], [(tag, ks)], [(tag, ss)])

/-- The feature-to-versions index computed inside `render`: a feature maps
to the tags, in map order, whose result list has some record whose `name`
field equals the feature. -/
def featureToVersions (version_info : List (String × List Rec)) (feature : String) :
    List String :=
  (version_info.filter
    (fun p => p.2.any (fun f => f.lookup "name" == some feature))).map Prod.fst

example :
    featureToVersions
      [("24.1", [[("name", "foo")]]), ("24.2", [[("name", "foo")], [("name", "bar")]])]
      "bar" = ["24.2"] := by decide

/-- A runtime with no containers. -/
def dockerAbsent : DockerState := fun _ => CState.absent

/-- Initial pipeline state: empty runtime, empty caches. -/
def sysInit : SysState := ⟨dockerAbsent, [], [], []⟩

/-- A remote service whose responses lack the `result` field. -/
def netEmpty : String → String → FiddleResponse := fun _ _ => ⟨none⟩

/-- An executor that fails non-benignly twice, then succeeds. -/
def execFailsTwice : String → String → Nat → QAttempt :=
  fun _ _ n => if n < 2 then ⟨"", "transient", 1⟩ else ⟨"payload", "", 0⟩

/-- An executor that always fails non-benignly. -/
def execAlwaysFails : String → String → Nat → QAttempt :=
  fun _ _ _ => ⟨"", "transient", 1⟩

/-- An executor whose every attempt exits nonzero with the benign
signature in its failure text. -/
def execBenign : String → String → Nat → QAttempt :=
  fun _ _ _ => ⟨"", "Code 60 DB Exception UNKNOWN_TABLE no table", 60⟩

/-- Oracles whose local executor succeeds at once with empty output. -/
def oraclesOk : Oracles := ⟨netEmpty, fun _ => true, fun _ _ _ => ⟨"", "", 0⟩⟩

/-- Oracles whose local executor always fails non-benignly. -/
def oraclesFailing : Oracles :=
  ⟨netEmpty, fun _ => true, fun _ _ _ => ⟨"", "connection refused", 210⟩⟩

/-- A runtime in which a stray container for version 24.1, left by an
interrupted prior run, is still running. -/
def strayDocker : DockerState :=
  fun n => if n = containerName "24.1" then CState.running else CState.absent

/-- Pipeline state over `strayDocker` with empty caches. -/
def strayState : SysState := ⟨strayDocker, [], [], []⟩

/-- Observe the state of one container name after a `processVersion`
iteration, when the iteration did not raise. -/
def dockerAfterProcess
    (r : Except PyErr (SysState × List Rec × List Rec × List Rec × Bool))
    (name : String) : Option CState :=
  match r with
  | Except.ok (st, _, _, _, _) => some (st.docker name)
  | Except.error _ => none

/-- The fixture of the end-to-end aggregation example: two versions whose
results share `foo` while only 24.2 has `bar`. -/
def demoVersionInfo : List (String × List Rec) :=
  [("24.1", [[("name", "foo")]]), ("24.2", [[("name", "foo")], [("name", "bar")]])]

/-! Helper lemmas about the embedding. -/

theorem dset_self (d : DockerState) (k : String) (s : CState) : dset d k s k = s := by
  simp [dset]

theorem dset_other (d : DockerState) (k : String) (s : CState) (n : String)
    (h : n ≠ k) : dset d k s n = d n := by
  simp [dset, h]

theorem runQueryLoop_accept (att : Nat → QAttempt) (n r : Nat)
    (h : attemptAccepted (att n) = true) :
    runQueryLoop att n (r + 1) = (some (att n).stdout, 1, 0) := by
  simp [runQueryLoop, h]

theorem runQueryLoop_step (att : Nat → QAttempt) (n r : Nat)
    (h : attemptAccepted (att n) = false) :
    runQueryLoop att n (r + 1) =
      ((runQueryLoop att (n + 1) r).1, (runQueryLoop att (n + 1) r).2.1 + 1,
       (runQueryLoop att (n + 1) r).2.2 + SLEEP_MS) := by
  simp [runQueryLoop, h]

theorem runQueryLoop_all_fail (att : Nat → QAttempt) :
    ∀ r k, (∀ i, i < r → attemptAccepted (att (k + i)) = false) →
      runQueryLoop att k r = (none, r, r * SLEEP_MS) := by
  intro r
  induction r with
  | zero => intro k _; rfl
  | succ r ih =>
    intro k h
    have h0 : attemptAccepted (att k) = false := by
      have := h 0 (Nat.succ_pos r)
      simpa using this
    have hrec := ih (k + 1) (fun i hi => by
      have := h (i + 1) (by omega)
      rwa [show k + (i + 1) = k + 1 + i by omega] at this)
    rw [runQueryLoop_step att k r h0, hrec]
    simp [Nat.succ_mul]

theorem runQueryLoop_first_accept (att : Nat → QAttempt) :
    ∀ j r k, j < r →
      (∀ i, i < j → attemptAccepted (att (k + i)) = false) →
      attemptAccepted (att (k + j)) = true →
      runQueryLoop att k r = (some (att (k + j)).stdout, j + 1, j * SLEEP_MS) := by
  intro j
  induction j with
  | zero =>
    intro r k hr _ hacc
    obtain ⟨r2, rfl⟩ : ∃ r2, r = r2 + 1 := ⟨r - 1, by omega⟩
    rw [runQueryLoop_accept att k r2 (by simpa using hacc)]
    simp
  | succ j ih =>
    intro r k hr hfail hacc
    obtain ⟨r2, rfl⟩ : ∃ r2, r = r2 + 1 := ⟨r - 1, by omega⟩
    have h0 : attemptAccepted (att k) = false := by
      simpa using hfail 0 (Nat.succ_pos j)
    have hrec := ih r2 (k + 1) (by omega)
      (fun i hi => by
        have := hfail (i + 1) (by omega)
        rwa [show k + (i + 1) = k + 1 + i by omega] at this)
      (by rwa [show k + (j + 1) = k + 1 + j by omega] at hacc)
    rw [runQueryLoop_step att k r2 h0, hrec]
    rw [show k + 1 + j = k + (j + 1) by omega]
    simp [Nat.succ_mul]

theorem ensure_running (d : DockerState) (imageOk : String → Bool) (tag : String)
    (h : imageOk tag = true) :
    (ensure d imageOk tag).1 (containerName tag) = CState.running := by
  unfold ensure
  by_cases hd : d (containerName tag) = CState.running
  · simp [hd]
  · simp [hd, h, dset_self]

theorem ensure_docker_other (d : DockerState) (imageOk : String → Bool) (tag n : String)
    (h : n ≠ containerName tag) : (ensure d imageOk tag).1 n = d n := by
  unfold ensure
  by_cases hd : d (containerName tag) = CState.running
  · simp [hd]
  · cases hi : imageOk tag <;> simp [hd, hi, dset, h]

theorem cleanupSweep_other (d : DockerState) (tag n : String)
    (h : n ≠ containerName tag) : (cleanupSweep d tag).1 n = d n := by
  unfold cleanupSweep
  by_cases hd : d (containerName tag) = CState.running <;> simp [hd, dset, h]

theorem cleanupSweep_self (d : DockerState) (tag : String) :
    (cleanupSweep d tag).1 (containerName tag) ≠ CState.running := by
  unfold cleanupSweep
  by_cases hd : d (containerName tag) = CState.running
  · simp [hd, dset]
  · simp [hd]

theorem run_local_docker_other (d : DockerState) (imageOk : String → Bool)
    (execQ : String → String → Nat → QAttempt) (q tag n : String)
    (h : n ≠ containerName tag) :
    (run_query_against_version_locally d imageOk execQ q tag).docker n = d n :=
  ensure_docker_other d imageOk tag n h

theorem computeGetter_docker (o : Oracles) (d : DockerState) (q tag : String) :
    (computeGetter o d q tag).2
      = (run_query USE_FIDDLE o.net d o.imageOk o.execQ q tag).docker := by
  unfold computeGetter
  cases hres : (run_query USE_FIDDLE o.net d o.imageOk o.execQ q tag).result <;>
    simp [hres]

theorem computeGetter_docker_other (o : Oracles) (d : DockerState) (q tag n : String)
    (h : n ≠ containerName tag) : (computeGetter o d q tag).2 n = d n := by
  rw [computeGetter_docker]
  exact run_local_docker_other d o.imageOk o.execQ q tag n h

theorem cachedGetter_docker_other (o : Oracles) (q : String)
    (cache : List (String × List Rec)) (d : DockerState) (tag n : String)
    (h : n ≠ containerName tag) : (cachedGetter o q cache d tag).2.2 n = d n := by
  have hcd := computeGetter_docker_other o d q tag n h
  unfold cachedGetter
  cases hl : cache.lookup tag with
  | some v =>
    by_cases hsc : should_cache [("tag", pyRepr tag)]
    · simp [hsc]
    · simp only [hsc, if_false, Bool.false_eq_true]
      cases hc : computeGetter o d q tag with
      | mk r d1 =>
        rw [hc] at hcd
        cases r <;> simpa using hcd
  | none =>
    cases hc : computeGetter o d q tag with
    | mk r d1 =>
      rw [hc] at hcd
      cases r <;> simpa using hcd

theorem dropWhile_of_all_false (p : Char → Bool) :
    ∀ l : List Char, (∀ c ∈ l, p c = false) → l.dropWhile p = l := by
  intro l h
  cases l with
  | nil => rfl
  | cons c cs => simp [List.dropWhile, h c (List.mem_cons_self c cs)]

theorem stripAposList_wrap (l : List Char) (h : ∀ c ∈ l, (c == apos) = false) :
    stripAposList (apos :: (l ++ [apos])) = l := by
  cases l with
  | nil => rfl
  | cons c cs =>
    have hc : (c == apos) = false := h c (by simp)
    unfold stripAposList
    have h1 : List.dropWhile (fun x => x == apos) (apos :: (c :: cs ++ [apos]))
        = c :: (cs ++ [apos]) := by
      simp [List.dropWhile, hc]
    rw [h1]
    have h2 : (c :: (cs ++ [apos])).reverse = apos :: (cs.reverse ++ [c]) := by
      simp
    rw [h2]
    have h3 : List.dropWhile (fun x => x == apos) (apos :: (cs.reverse ++ [c]))
        = cs.reverse ++ [c] := by
      have hmem : ∀ x ∈ cs.reverse ++ [c], (x == apos) = false := by
        intro x hx
        rcases List.mem_append.mp hx with hx | hx
        · exact h x (List.mem_cons_of_mem c (List.mem_reverse.mp hx))
        · simp at hx
          subst hx
          exact hc
      simp only [List.dropWhile]
      rw [beq_self_eq_true]
      exact dropWhile_of_all_false _ _ hmem
    rw [h3]
    simp

theorem pyStripApos_pyRepr (t : String) (h : ∀ c ∈ t.data, (c == apos) = false) :
    pyStripApos (pyRepr t) = t := by
  show String.mk (stripAposList (apos :: (t.data ++ [apos]))) = t
  rw [stripAposList_wrap t.data h]

theorem should_cache_tag (t : String) (h : ∀ c ∈ t.data, (c == apos) = false) :
    should_cache [("tag", pyRepr t)] = !(CACHE_DENY_LIST.contains t) := by
  unfold should_cache
  rw [show (List.lookup "tag" [("tag", pyRepr t)]) = some (pyRepr t) from rfl]
  simp [pyStripApos_pyRepr t h]


theorem ensure_handle (d : DockerState) (imageOk : String → Bool) (tag : String) :
    (ensure d imageOk tag).2.1 = containerName tag := by
  unfold ensure
  by_cases hd : d (containerName tag) = CState.running <;> simp [hd]

theorem ensure_of_running (d : DockerState) (imageOk : String → Bool) (tag : String)
    (h : d (containerName tag) = CState.running) :
    ensure d imageOk tag
      = (d, containerName tag, [PEvent.inspect (containerName tag)]) := by
  unfold ensure
  simp [h]

theorem run_query_false_result_accept0 (o : Oracles) (d : DockerState) (q tag : String)
    (ha : attemptAccepted (o.execQ q tag 0) = true) :
    (run_query USE_FIDDLE o.net d o.imageOk o.execQ q tag).result
      = some (o.execQ q tag 0).stdout := by
  show (runQueryLoop (o.execQ q tag) 0 MAX_RETRIES).1 = _
  rw [show MAX_RETRIES = 59 + 1 from rfl, runQueryLoop_accept _ _ _ ha]

theorem cachedGetter_miss_accept0 (o : Oracles) (q : String)
    (cache : List (String × List Rec)) (d : DockerState) (tag : String)
    (hm : cache.lookup tag = none)
    (ha : attemptAccepted (o.execQ q tag 0) = true) :
    (cachedGetter o q cache d tag).1
      = Except.ok (dictReaderTSV (o.execQ q tag 0).stdout) := by
  have hres := run_query_false_result_accept0 o d q tag ha
  unfold cachedGetter
  rw [hm]
  simp only [computeGetter, hres]

theorem get_functions_docker_other (o : Oracles) (st : SysState) (tag n : String)
    (h : n ≠ containerName tag) :
    (get_functions o st tag).2.docker n = st.docker n :=
  cachedGetter_docker_other o FUNCTIONS_QUERY st.cacheF st.docker tag n h

theorem get_keywords_docker_other (o : Oracles) (st : SysState) (tag n : String)
    (h : n ≠ containerName tag) :
    (get_keywords o st tag).2.docker n = st.docker n :=
  cachedGetter_docker_other o KEYWORDS_QUERY st.cacheK st.docker tag n h

theorem get_settings_docker_other (o : Oracles) (st : SysState) (tag n : String)
    (h : n ≠ containerName tag) :
    (get_settings o st tag).2.docker n = st.docker n :=
  cachedGetter_docker_other o SETTINGS_QUERY st.cacheS st.docker tag n h

/-! Claim theorems. -/

/-- C2: against a local instance, if the first `N` attempts fail
non-benignly and attempt `N + 1` succeeds (`N < 60`), `execute` returns
the success payload after exactly `N + 1` attempts with a 100 ms delay
between attempts; if every attempt fails non-benignly, it makes exactly
60 attempts and returns failure. -/
theorem execute_retry_bound (d : DockerState) (imageOk : String → Bool)
    (execQ : String → String → Nat → QAttempt) (q tag : String) (N : Nat) :
    ((N < MAX_RETRIES →
      (∀ i, i < N → attemptAccepted (execQ q tag i) = false) →
      attemptAccepted (execQ q tag N) = true →
      (run_query_against_version_locally d imageOk execQ q tag).result
          = some (execQ q tag N).stdout
      ∧ (run_query_against_version_locally d imageOk execQ q tag).attempts = N + 1
      ∧ (run_query_against_version_locally d imageOk execQ q tag).sleepMs
          = N * SLEEP_MS))
    ∧ ((∀ i, i < MAX_RETRIES → attemptAccepted (execQ q tag i) = false) →
      (run_query_against_version_locally d imageOk execQ q tag).result = none
      ∧ (run_query_against_version_locally d imageOk execQ q tag).attempts
          = MAX_RETRIES) := by
  constructor
  · intro hN hfail hsucc
    have hloop := runQueryLoop_first_accept (execQ q tag) N MAX_RETRIES 0 hN
      (fun i hi => by simpa using hfail i hi)
      (by simpa using hsucc)
    refine ⟨?_, ?_, ?_⟩
    · show (runQueryLoop (execQ q tag) 0 MAX_RETRIES).1 = _
      rw [hloop]
      simp
    · show (runQueryLoop (execQ q tag) 0 MAX_RETRIES).2.1 = _
      rw [hloop]
    · show (runQueryLoop (execQ q tag) 0 MAX_RETRIES).2.2 = _
      rw [hloop]
  · intro hfail
    have hloop := runQueryLoop_all_fail (execQ q tag) MAX_RETRIES 0
      (fun i hi => by simpa using hfail i hi)
    constructor
    · show (runQueryLoop (execQ q tag) 0 MAX_RETRIES).1 = _
      rw [hloop]
    · show (runQueryLoop (execQ q tag) 0 MAX_RETRIES).2.1 = _
      rw [hloop]

/-- Witness for C2: an executor failing twice then succeeding yields the
payload after 3 attempts and 200 ms of sleep; an always-failing executor
yields failure after exactly 60 attempts. -/
theorem execute_retry_bound_witness :
    ((run_query_against_version_locally dockerAbsent (fun _ => true) execFailsTwice
        FUNCTIONS_QUERY "24.1").result = some "payload"
      ∧ (run_query_against_version_locally dockerAbsent (fun _ => true) execFailsTwice
          FUNCTIONS_QUERY "24.1").attempts = 3
      ∧ (run_query_against_version_locally dockerAbsent (fun _ => true) execFailsTwice
          FUNCTIONS_QUERY "24.1").sleepMs = 200)
    ∧ ((run_query_against_version_locally dockerAbsent (fun _ => true) execAlwaysFails
        FUNCTIONS_QUERY "24.1").result = none
      ∧ (run_query_against_version_locally dockerAbsent (fun _ => true) execAlwaysFails
          FUNCTIONS_QUERY "24.1").attempts = 60) := by
  constructor
  · exact (execute_retry_bound dockerAbsent (fun _ => true) execFailsTwice
      FUNCTIONS_QUERY "24.1" 2).1 (by decide) (by decide) (by decide)
  · exact (execute_retry_bound dockerAbsent (fun _ => true) execAlwaysFails
      FUNCTIONS_QUERY "24.1" 0).2 (by decide)

/-- C3: an attempt whose failure output carries the benign signature is
accepted as the final result immediately — on the very first attempt and
despite a nonzero exit status — and the acceptance test reads only the raw
attempt outcome, so any query with the same raw outcomes (in particular
each of the three fixed introspection queries) is treated identically. -/
theorem benign_signature_accepted (d : DockerState) (imageOk : String → Bool)
    (execQ : String → String → Nat → QAttempt) (q tag : String)
    (_hrc : (execQ q tag 0).returncode ≠ 0)
    (hb : strContains "UNKNOWN_TABLE" (execQ q tag 0).stderr = true) :
    (run_query_against_version_locally d imageOk execQ q tag).result
        = some (execQ q tag 0).stdout
    ∧ (run_query_against_version_locally d imageOk execQ q tag).attempts = 1
    ∧ ∀ q2 : String, (∀ n, execQ q2 tag n = execQ q tag n) →
        run_query_against_version_locally d imageOk execQ q2 tag
          = run_query_against_version_locally d imageOk execQ q tag := by
  have hacc : attemptAccepted (execQ q tag 0) = true := by
    unfold attemptAccepted
    rw [hb]
    simp
  have hloop := runQueryLoop_accept (execQ q tag) 0 59 hacc
  refine ⟨?_, ?_, ?_⟩
  · show (runQueryLoop (execQ q tag) 0 MAX_RETRIES).1 = _
    rw [show MAX_RETRIES = 59 + 1 from rfl, hloop]
  · show (runQueryLoop (execQ q tag) 0 MAX_RETRIES).2.1 = _
    rw [show MAX_RETRIES = 59 + 1 from rfl, hloop]
  · intro q2 hq
    have hfun : execQ q2 tag = execQ q tag := funext hq
    unfold run_query_against_version_locally
    rw [hfun]

/-- Witness for C3: a benign-signature failure with exit status 60 is
accepted at once, and the three fixed queries behave identically on it. -/
theorem benign_signature_accepted_witness :
    ((execBenign FUNCTIONS_QUERY "24.1" 0).returncode ≠ 0)
    ∧ (run_query_against_version_locally dockerAbsent (fun _ => true) execBenign
        FUNCTIONS_QUERY "24.1").result = some ""
    ∧ run_query_against_version_locally dockerAbsent (fun _ => true) execBenign
        KEYWORDS_QUERY "24.1"
      = run_query_against_version_locally dockerAbsent (fun _ => true) execBenign
        FUNCTIONS_QUERY "24.1"
    ∧ run_query_against_version_locally dockerAbsent (fun _ => true) execBenign
        SETTINGS_QUERY "24.1"
      = run_query_against_version_locally dockerAbsent (fun _ => true) execBenign
        FUNCTIONS_QUERY "24.1" := by
  have h := benign_signature_accepted dockerAbsent (fun _ => true) execBenign
    FUNCTIONS_QUERY "24.1" (by decide) (by decide)
  exact ⟨by decide, h.1, h.2.2 KEYWORDS_QUERY (fun _ => rfl),
    h.2.2 SETTINGS_QUERY (fun _ => rfl)⟩

/-- C4: a cached call whose recorded version tag is in the deny-list of
mutable aliases is recomputed and overwritten on every call (so across
separate process runs too, the store being the only persistent state),
while a call with a tag outside the deny-list computes only when no entry
is stored and reuses the stored entry otherwise. -/
theorem cache_mutable_alias_policy {α : Type} (t : String) (v0 : α)
    (compute : Unit → α) (h : ∀ c ∈ t.data, (c == apos) = false) :
    (should_cache [("tag", pyRepr t)] = !(CACHE_DENY_LIST.contains t))
    ∧ (CACHE_DENY_LIST.contains t = true →
        cachedCall (some v0) [("tag", pyRepr t)] compute
          = (compute (), some (compute ()), true))
    ∧ (CACHE_DENY_LIST.contains t = false →
        cachedCall (some v0) [("tag", pyRepr t)] compute = (v0, some v0, false))
    ∧ cachedCall (none : Option α) [("tag", pyRepr t)] compute
        = (compute (), some (compute ()), true) := by
  have hsc := should_cache_tag t h
  refine ⟨hsc, ?_, ?_, rfl⟩
  · intro hc
    unfold cachedCall
    rw [hsc, hc]
    rfl
  · intro hc
    unfold cachedCall
    rw [hsc, hc]
    rfl

/-- Witness for C4: with tag `latest` the stored entry is recomputed and
overwritten; with tag `23.8` the stored entry is reused untouched. -/
theorem cache_mutable_alias_policy_witness :
    (∀ c ∈ "latest".data, (c == apos) = false)
    ∧ cachedCall (some 0) [("tag", pyRepr "latest")] (fun _ => 1) = (1, some 1, true)
    ∧ cachedCall (some 0) [("tag", pyRepr "23.8")] (fun _ => 1) = (0, some 0, false) := by
  refine ⟨by decide, ?_, ?_⟩
  · exact (cache_mutable_alias_policy "latest" 0 (fun _ => 1) (by decide)).2.1 (by decide)
  · exact (cache_mutable_alias_policy "23.8" 0 (fun _ => 1) (by decide)).2.2.1 (by decide)

/-- C9: a cached operation whose argument tuple has no version-tag
component — the documentation-page fetch (no arguments) and the
per-function URL lookup (a `function` argument only) — always validates
its stored entry, since the missing tag defaults to the empty string,
which is not in the deny-list; so a stored entry is reused on every
subsequent call and never recomputed. -/
theorem cache_no_tag_always_valid {α : Type} (f : String) (v : α)
    (compute : Unit → α) :
    should_cache [] = true
    ∧ should_cache [("function", pyRepr f)] = true
    ∧ cachedCall (some v) [] compute = (v, some v, false)
    ∧ cachedCall (some v) [("function", pyRepr f)] compute = (v, some v, false) := by
  have h1 : should_cache [] = true := rfl
  have h2 : should_cache [("function", pyRepr f)] = true := rfl
  refine ⟨h1, h2, ?_, ?_⟩
  · unfold cachedCall
    rw [h1]
    rfl
  · unfold cachedCall
    rw [h2]
    rfl

/-- C6: `ensure` called a second time without an intervening reclaim
returns the same handle (the deterministic container name), leaves the
runtime untouched, and performs no removal, no artifact pull and no new
start — only the inspect call.  The hypothesis says the tag's artifact is
pullable, so the first call ends with the container running. -/
theorem ensure_idempotent (d : DockerState) (imageOk : String → Bool) (tag : String)
    (h : imageOk tag = true) :
    (ensure (ensure d imageOk tag).1 imageOk tag).2.1 = (ensure d imageOk tag).2.1
    ∧ (ensure (ensure d imageOk tag).1 imageOk tag).1 = (ensure d imageOk tag).1
    ∧ (ensure (ensure d imageOk tag).1 imageOk tag).2.2
        = [PEvent.inspect (containerName tag)] := by
  have hrun := ensure_running d imageOk tag h
  have h2 := ensure_of_running (ensure d imageOk tag).1 imageOk tag hrun
  rw [h2]
  refine ⟨?_, rfl, rfl⟩
  exact (ensure_handle d imageOk tag).symm

/-- Witness for C6: concrete second `ensure` for tag 24.1 issues only the
inspect call. -/
theorem ensure_idempotent_witness :
    ((fun _ => true) "24.1" = true)
    ∧ (ensure (ensure dockerAbsent (fun _ => true) "24.1").1 (fun _ => true) "24.1").2.2
        = [PEvent.inspect (containerName "24.1")] := by
  exact ⟨rfl, (ensure_idempotent dockerAbsent (fun _ => true) "24.1" rfl).2.2⟩

/-- C7: in remote execution mode, `run_query` performs exactly one network
round-trip, no retry loop, no provisioning events and no change to the
container runtime; a response lacking the nested `result`/`output` payload
yields absence (query failure), not a transport error. -/
theorem fiddle_single_roundtrip (net : String → String → FiddleResponse)
    (d : DockerState) (imageOk : String → Bool)
    (execQ : String → String → Nat → QAttempt) (q tag : String) :
    run_query true net d imageOk execQ q tag
      = ⟨run_query_against_fiddle net q tag, d, [], 1, 0, 0⟩
    ∧ ((net q tag).result = none → run_query_against_fiddle net q tag = none)
    ∧ (∀ r, (net q tag).result = some r →
        run_query_against_fiddle net q tag = r.output) := by
  refine ⟨rfl, ?_, ?_⟩
  · intro h
    unfold run_query_against_fiddle
    rw [h]
  · intro r h
    unfold run_query_against_fiddle
    rw [h]

/-- Witness for C7: a response with no `result` field gives one
round-trip, no provisioning, an unchanged runtime, and absence. -/
theorem fiddle_single_roundtrip_witness :
    run_query true netEmpty dockerAbsent (fun _ => true) execAlwaysFails
      FUNCTIONS_QUERY "24.1" = ⟨none, dockerAbsent, [], 1, 0, 0⟩
    ∧ run_query_against_fiddle netEmpty FUNCTIONS_QUERY "24.1" = none := by
  have h := fiddle_single_roundtrip netEmpty dockerAbsent (fun _ => true)
    execAlwaysFails FUNCTIONS_QUERY "24.1"
  have h2 := h.2.1 rfl
  refine ⟨?_, h2⟩
  rw [h.1, h2]

/-- C10: when a query completes successfully or via a benign match
(here: the first attempt is accepted), the returned text is that attempt's
stdout, so each of the three introspection getters returns a parsed record
list — never absence and never an exception — and an empty stdout (the
benign case) parses to the empty record list. -/
theorem accepted_query_yields_records (o : Oracles) (st : SysState) (tag : String)
    (hmF : st.cacheF.lookup tag = none)
    (hmK : st.cacheK.lookup tag = none)
    (hmS : st.cacheS.lookup tag = none)
    (haF : attemptAccepted (o.execQ FUNCTIONS_QUERY tag 0) = true)
    (haK : attemptAccepted (o.execQ KEYWORDS_QUERY tag 0) = true)
    (haS : attemptAccepted (o.execQ SETTINGS_QUERY tag 0) = true) :
    (get_functions o st tag).1
        = Except.ok (dictReaderTSV (o.execQ FUNCTIONS_QUERY tag 0).stdout)
    ∧ (get_keywords o (get_functions o st tag).2 tag).1
        = Except.ok (dictReaderTSV (o.execQ KEYWORDS_QUERY tag 0).stdout)
    ∧ (get_settings o (get_keywords o (get_functions o st tag).2 tag).2 tag).1
        = Except.ok (dictReaderTSV (o.execQ SETTINGS_QUERY tag 0).stdout)
    ∧ dictReaderTSV "" = [] := by
  have h1 := cachedGetter_miss_accept0 o FUNCTIONS_QUERY st.cacheF st.docker tag hmF haF
  have hK2 : ((get_functions o st tag).2).cacheK = st.cacheK := rfl
  have h2 := cachedGetter_miss_accept0 o KEYWORDS_QUERY
    ((get_functions o st tag).2).cacheK ((get_functions o st tag).2).docker tag
    (by rw [hK2]; exact hmK) haK
  have hS3 : ((get_keywords o (get_functions o st tag).2 tag).2).cacheS = st.cacheS := rfl
  have h3 := cachedGetter_miss_accept0 o SETTINGS_QUERY
    ((get_keywords o (get_functions o st tag).2 tag).2).cacheS
    ((get_keywords o (get_functions o st tag).2 tag).2).docker tag
    (by rw [hS3]; exact hmS) haS
  exact ⟨h1, h2, h3, rfl⟩

/-- Witness for C10: a first-attempt success with empty stdout makes
`get_functions` return the empty record list, not absence. -/
theorem accepted_query_yields_records_witness :
    (get_functions oraclesOk sysInit "24.1").1 = Except.ok []
    ∧ dictReaderTSV "" = [] := by
  have h := accepted_query_yields_records oraclesOk sysInit "24.1"
    rfl rfl rfl rfl rfl rfl
  exact ⟨h.1, h.2.2.2⟩

/-- C8: the feature-to-versions index maps each feature name to exactly
the tags, in map order, whose result list has a record named by it; on the
fixture with versions 24.1 and 24.2, `bar` maps to exactly `[24.2]` and
`foo` to `[24.1, 24.2]`. -/
theorem feature_index_spec :
    (∀ (vi : List (String × List Rec)) (feature tag : String),
      tag ∈ featureToVersions vi feature ↔
        ∃ funcs, (tag, funcs) ∈ vi ∧ ∃ f, f ∈ funcs ∧ f.lookup "name" = some feature)
    ∧ featureToVersions demoVersionInfo "bar" = ["24.2"]
    ∧ featureToVersions demoVersionInfo "foo" = ["24.1", "24.2"] := by
  refine ⟨?_, by decide, by decide⟩
  intro vi feature tag
  unfold featureToVersions
  simp only [List.mem_map, List.mem_filter, List.any_eq_true, beq_iff_eq]
  constructor
  · rintro ⟨⟨t, fs⟩, ⟨hmem, hany⟩, rfl⟩
    exact ⟨fs, hmem, hany⟩
  · rintro ⟨fs, hmem, hf⟩
    exact ⟨(tag, fs), ⟨hmem, hf⟩, rfl⟩

/-- C1 (divergence witness): with the resolved tags `[24.1, 24.2]` and a
local executor whose every attempt for every query fails non-benignly,
the exhausted retry bound makes `run_query` return absence, the parse
step of `get_functions` then raises, and the uncaught exception aborts the
whole pipeline — version 24.2 is never processed and no table data is
produced, instead of 24.1 being treated as missing and the run
continuing. -/
theorem exhausted_retries_abort_pipeline :
    mainLoop oraclesFailing ["24.1", "24.2"] sysInit
      = Except.error (PyErr.attributeError noneSplitlinesMsg)
    ∧ (run_query USE_FIDDLE oraclesFailing.net sysInit.docker oraclesFailing.imageOk
        oraclesFailing.execQ FUNCTIONS_QUERY "24.1").result = none := by
  exact ⟨rfl, rfl⟩

/-- C5 (counterexample): a stray container for version 24.1 left over
from an interrupted prior run is still running at the moment the
orchestrator moves on from version 24.2 to the next version identifier —
the cleanup step inspects only the just-processed version's deterministic
name, so no sweep over other versions' names happens. -/
theorem sweep_misses_stray_counterexample :
    dockerAfterProcess (processVersion oraclesOk strayState "24.2")
      (containerName "24.1") = some CState.running := by
  rfl

/-- C5 (amended): in local execution mode, when the orchestrator moves on
from a version identifier (one other than the floor version 21.9), the
just-processed version's instance is no longer running, but the cleanup
touches only that version's deterministic name: every other container
name keeps exactly the state it had before the iteration, so a stray
instance under another version's name is not swept. -/
theorem sweep_only_current_version (o : Oracles) (st : SysState) (tag : String)
    (st1 : SysState) (fs ks ss : List Rec) (cont : Bool)
    (hne : tag ≠ "21.9")
    (hok : processVersion o st tag = Except.ok (st1, fs, ks, ss, cont)) :
    st1.docker (containerName tag) ≠ CState.running
    ∧ ∀ n, n ≠ containerName tag → st1.docker n = st.docker n := by
  unfold processVersion at hok
  split at hok
  · simp at hok
  · rename_i fs0 stA heqF
    split at hok
    · simp at hok
    · rename_i ks0 stB heqK
      split at hok
      · simp at hok
      · rename_i ss0 stC heqS
        rw [if_neg hne, if_neg (by decide : ¬(USE_FIDDLE = true))] at hok
        simp only [Except.ok.injEq, Prod.mk.injEq] at hok
        obtain ⟨hst, -, -, -, -⟩ := hok
        subst hst
        have hA : (get_functions o st tag).2 = stA := congrArg Prod.snd heqF
        have hB : (get_keywords o stA tag).2 = stB := congrArg Prod.snd heqK
        have hC : (get_settings o stB tag).2 = stC := congrArg Prod.snd heqS
        constructor
        · exact cleanupSweep_self stC.docker tag
        · intro n hn
          calc (cleanupSweep stC.docker tag).1 n
              = stC.docker n := cleanupSweep_other stC.docker tag n hn
            _ = stB.docker n := by
                rw [← hC]
                exact get_settings_docker_other o stB tag n hn
            _ = stA.docker n := by
                rw [← hB]
                exact get_keywords_docker_other o stA tag n hn
            _ = st.docker n := by
                rw [← hA]
                exact get_functions_docker_other o st tag n hn

/-- Witness for C5 amended: after processing version 24.2 from the stray
state, 24.2's own container is not running. -/
theorem sweep_only_current_version_witness :
    ("24.2" : String) ≠ "21.9"
    ∧ dockerAfterProcess (processVersion oraclesOk strayState "24.2")
        (containerName "24.2") ≠ some CState.running := by
  refine ⟨by decide, ?_⟩
  rcases hok : processVersion oraclesOk strayState "24.2" with e | ⟨st1, fs, ks, ss, cont⟩
  · simp [dockerAfterProcess]
  · have h := sweep_only_current_version oraclesOk strayState "24.2" st1 fs ks ss cont
      (by decide) hok
    simpa [dockerAfterProcess] using h.1
